import Mathlib

/-!
Verification of the class-level event dispatch core of the jii framework
(`Event` in `src/dev/worker-examples/standard/app/config/comet.js`):
`normalizeHandler`, `on`, `off`, `hasHandlers` and `trigger`.

The JavaScript code is embedded shallowly:
* `JSVal` is the universe of JavaScript values the code inspects:
  primitives, plain functions, class constructors, instances,
  prototype objects, the built-ins `Function`, `Function.prototype`,
  `Object.prototype`, `Object`, objects carrying `callback`/`context`
  keys, other plain objects, and arrays.  Arrays of length two carry
  their elements (`varr2`); arrays of any other length are represented
  by their length only (`varrN`), since the code never inspects their
  elements (they can only reach the failure branch of normalization).
* A `Hierarchy` supplies the externally provided single-inheritance
  chain (`parent`), the runtime class of every instance (`instClass`),
  the `Jii.namespace` resolver (`ns`) and the static members of each
  class (`statics`, used for the `this[name]` and `Type[method]`
  lookups of `normalizeHandler`).
* `Object.getPrototypeOf` becomes `getProto`, `x.constructor` becomes
  `constructorOf`, and the unbounded `while (true)` walks of the source
  are run with a fuel of `rankV cls + 1`, which bounds the length of
  any prototype chain when `parent` is strictly decreasing on class
  identifiers (as it is in every scenario below).
* The registry `Event._events` is an association list from event name
  to the ordered binding list; a binding is the `[cls, handler, data]`
  triple of the source.  Handler callbacks are function identifiers;
  their behaviour during dispatch is an interpretation
  `env : Nat → EvtRecord → EvtRecord`, and `trigger` additionally
  returns the trace of invoked callback identifiers in order.
* JavaScript dynamic failures (`throw`, `TypeError`) appear as
  `Except String`.
-/

namespace JiiEvent

/-- JavaScript values, as far as the event core inspects them. -/
inductive JSVal where
  | vnull
  | vundefined
  | vbool (b : Bool)
  | vnum (n : Int)
  | vstr (s : String)
  /-- a plain (non-class) function value, by identity -/
  | vfunc (f : Nat)
  /-- a class constructor (ES6 classes are functions) -/
  | vclass (c : Nat)
  /-- an instance object, by identity -/
  | vinst (i : Nat)
  /-- the `prototype` object of class `c` -/
  | vproto (c : Nat)
  /-- the built-in `Function` constructor -/
  | vfunctionCtor
  /-- the built-in `Function.prototype` -/
  | vfunctionProto
  /-- the built-in `Object.prototype` -/
  | vobjectProto
  /-- the built-in `Object` constructor -/
  | vobjectCtor
  /-- a plain object owning exactly the keys `context` and `callback` -/
  | vhobj (context : JSVal) (callback : JSVal)
  /-- some other plain object (no `callback`/`context` keys) -/
  | vplain
  /-- an array of length two -/
  | varr2 (a : JSVal) (b : JSVal)
  /-- an array whose length is not two, kept abstract -/
  | varrN (len : Nat)
  deriving DecidableEq

namespace JSVal

/-- JavaScript falsiness (`!v`): null, undefined, false, 0, "". -/
def falsy : JSVal → Bool
  | .vnull => true
  | .vundefined => true
  | .vbool b => !b
  | .vnum n => n == 0
  | .vstr s => s == ""
  | _ => false

/-- JavaScript truthiness (`!!v`). -/
def truthy (v : JSVal) : Bool := !v.falsy

/-- lodash `_isObject`: objects, arrays and functions; not primitives. -/
def isObjectV : JSVal → Bool
  | .vnull | .vundefined | .vbool _ | .vnum _ | .vstr _ => false
  | _ => true

/-- lodash `_isFunction`: plain functions, classes and the built-in
constructors are callable. -/
def isFunctionV : JSVal → Bool
  | .vfunc _ | .vclass _ | .vfunctionCtor | .vobjectCtor => true
  | _ => false

/-- lodash `_isString`. -/
def isStringV : JSVal → Bool
  | .vstr _ => true
  | _ => false

/-- The shape test of normalization's first accepted form:
`_isObject(handler) && _has(handler, 'callback') && _has(handler, 'context')`. -/
def hasCallbackContext : JSVal → Bool
  | .vhobj _ _ => true
  | _ => false

/-- The shape test of normalization's pair forms:
`_isArray(handler) && handler.length === 2`. -/
def isArrayLen2 : JSVal → Bool
  | .varr2 _ _ => true
  | _ => false

end JSVal

/-- The externally provided type system and namespace resolver (§6 of the
spec): single-inheritance `parent` chain over class identifiers, the
runtime class of each instance, the `Jii.namespace` resolver, and each
class's static members (name → function identifier). -/
structure Hierarchy where
  parent : Nat → Option Nat
  instClass : Nat → Nat
  ns : String → Nat
  statics : Nat → String → Option Nat

/-- `Object.getPrototypeOf`, on the fragment of the object graph the
event core walks.  For an ES6 class, the prototype of the constructor is
the parent constructor (or `Function.prototype` at the root); for an
instance it is its class's `prototype` object; prototype objects chain in
parallel down to `Object.prototype`, whose prototype is `null` (`none`).
Arrays and plain objects are sent directly to `Object.prototype`
(intermediate built-in prototypes are irrelevant here: no binding ever
lives on them).  Primitives answer `none`; the code never takes their
prototype. -/
def getProto (h : Hierarchy) : JSVal → Option JSVal
  | .vclass c =>
    some (match h.parent c with
      | some p => .vclass p
      | none => .vfunctionProto)
  | .vproto c =>
    some (match h.parent c with
      | some p => .vproto p
      | none => .vobjectProto)
  | .vinst i => some (.vproto (h.instClass i))
  | .vfunc _ => some .vfunctionProto
  | .vfunctionCtor => some .vfunctionProto
  | .vobjectCtor => some .vfunctionProto
  | .vfunctionProto => some .vobjectProto
  | .vhobj _ _ => some .vobjectProto
  | .vplain => some .vobjectProto
  | .varr2 _ _ => some .vobjectProto
  | .varrN _ => some .vobjectProto
  | .vobjectProto => none
  | _ => none

/-- The `constructor` property, as resolved through the prototype chain:
an instance answers its class; a class (being a function) answers the
built-in `Function`; a `prototype` object answers its class; plain
objects and arrays answer `Object`. -/
def constructorOf (h : Hierarchy) : JSVal → JSVal
  | .vinst i => .vclass (h.instClass i)
  | .vclass _ => .vfunctionCtor
  | .vproto c => .vclass c
  | .vfunc _ => .vfunctionCtor
  | .vfunctionCtor => .vfunctionCtor
  | .vfunctionProto => .vfunctionCtor
  | .vobjectProto => .vobjectCtor
  | .vobjectCtor => .vfunctionCtor
  | .vhobj _ _ => .vobjectCtor
  | .vplain => .vobjectCtor
  | .varr2 _ _ => .vobjectCtor
  | .varrN _ => .vobjectCtor
  | _ => .vundefined

/-- An upper bound on the length of the prototype chain starting at a
value, valid whenever `h.parent` is strictly decreasing on class
identifiers (true of every hierarchy considered below).  Used as fuel
for the source's `while (true)` walks. -/
def rankV (h : Hierarchy) : JSVal → Nat
  | .vobjectProto => 0
  | .vfunctionProto => 1
  | .vfunctionCtor => 2
  | .vobjectCtor => 2
  | .vfunc _ => 2
  | .vhobj _ _ => 1
  | .vplain => 1
  | .varr2 _ _ => 1
  | .varrN _ => 1
  | .vclass c => c + 3
  | .vproto c => c + 3
  | .vinst i => h.instClass i + 4
  | _ => 0

/-- Property access `v[key]`, as far as the code exercises it: a string
key on a class looks up a static member; any other access the code
performs this way yields `undefined`. -/
def getProp (h : Hierarchy) : JSVal → JSVal → JSVal
  | .vclass c, .vstr m =>
    match h.statics c m with
    | some f => .vfunc f
    | none => .vundefined
  | _, _ => .vundefined

/-- `JSON.stringify`, on the values that can reach the error message of
`normalizeHandler` (object bodies and the elements of arrays whose
length is not two are summarized; no claim depends on them). -/
def jsonStringify : JSVal → String
  | .vnull => "null"
  | .vundefined => "undefined"
  | .vbool b => if b then "true" else "false"
  | .vnum n => toString n
  | .vstr s => "\x22" ++ s ++ "\x22"
  | .varr2 a b => "[" ++ jsonStringify a ++ "," ++ jsonStringify b ++ "]"
  | .varrN _ => "[...]"
  | _ => "\x7b\x7d"

/-- The canonical handler shape `{context, callback}` produced by
`normalizeHandler`. -/
structure NormHandler where
  context : JSVal
  callback : JSVal
  deriving DecidableEq

/-- One entry of a binding list: the `[cls, handler, data]` triple pushed
by `Event.on`.  The handler slot is `none` when `normalizeHandler`
returned `null` (falsy raw handler). -/
structure Binding where
  boundType : JSVal
  handler : Option NormHandler
  data : JSVal
  deriving DecidableEq

/-- The registry `Event._events`: an association list from event name to
the ordered binding list.  A key present with an empty list is distinct
from an absent key, exactly as in the JavaScript object. -/
abbrev Events : Type := List (String × List Binding)

/-- `this._events[name]`: `none` when the key is absent.  (Keys are
unique: the registry only ever gains keys through `setEvents`.) -/
def getEvents : Events → String → Option (List Binding)
  | [], _ => none
  | p :: es, name => if p.1 == name then some p.2 else getEvents es name

/-- `this._events[name] = l`: overwrite the key, or create it. -/
def setEvents : Events → String → List Binding → Events
  | [], name, l => [(name, l)]
  | p :: es, name, l =>
    if p.1 == name then (name, l) :: es else p :: setEvents es name l

/-- `Event.normalizeHandler(handler, context)`.  `self` is the class on
which the static method was invoked (the receiver `this`); the second
component of the result is the handler argument after the call, since
the `[typeName, methodName]` case assigns
`handler[0] = Jii.namespace(handler[0])` into the caller's array.
Mirrors the source checks in order: falsy → `null`; object with
`callback` and `context` keys → returned unchanged; two-element array →
`[fn, object]` or the namespace-resolution branch; string →
`this[name]` with the supplied context; function → the function with
the supplied context; otherwise
`throw new ApplicationException('Wrong handler format:' + JSON.stringify(handler))`. -/
def normalizeHandler (h : Hierarchy) (self : Nat) (handler : JSVal) (context : JSVal) :
    Except String (Option NormHandler × JSVal) :=
  let context := if context.falsy then JSVal.vnull else context
  if handler.falsy then .ok (none, handler)
  else
    match handler with
    | .vhobj ctx cb => .ok (some ⟨ctx, cb⟩, handler)
    | .varr2 a b =>
      if a.isFunctionV && b.isObjectV then
        .ok (some ⟨b, a⟩, handler)
      else
        let a' := match a with
          | .vstr s => JSVal.vclass (h.ns s)
          | _ => a
        .ok (some ⟨a', getProp h a' b⟩, .varr2 a' b)
    | .vstr s => .ok (some ⟨context, getProp h (.vclass self) (.vstr s)⟩, handler)
    | v =>
      if v.isFunctionV then .ok (some ⟨context, v⟩, handler)
      else .error ("Wrong handler format:" ++ jsonStringify handler)

/-- `Event.on(cls, name, handler, data, isAppend)`.  (`on` is a reserved
token here, hence the primed name.)  `self` is the class on which `on`
was invoked (used by `normalizeHandler`'s string case).
`data = data || null`; `isAppend` defaults to `true` when `undefined`;
a string `cls` goes through `Jii.namespace`; then either the append
branch (also taken when the list for `name` is absent), which pushes
unless some binding with the same `boundType` already exists, or the
prepend branch, which unshifts unconditionally. -/
def on' (h : Hierarchy) (self : Nat) (es : Events) (cls : JSVal) (name : String)
    (handler : JSVal) (data : JSVal) (isAppend : JSVal) : Except String Events :=
  let data := if data.falsy then JSVal.vnull else data
  let isApp : Bool := if isAppend = JSVal.vundefined then true else isAppend.truthy
  let cls := match cls with
    | .vstr s => JSVal.vclass (h.ns s)
    | _ => cls
  match normalizeHandler h self handler .vundefined with
  | .error e => .error e
  | .ok (nh, _) =>
    match getEvents es name, isApp with
    | none, _ =>
      -- `this._events[name] = this._events[name] || []`, then the
      -- guarded push (an absent list also lands in the append branch,
      -- because `!this._events[name]` is true)
      .ok (setEvents es name [⟨cls, nh, data⟩])
    | some l, true =>
      if (l.find? (fun item => item.boundType == cls)).isSome then
        .ok (setEvents es name l)
      else
        .ok (setEvents es name (l ++ [⟨cls, nh, data⟩]))
    | some l, false =>
      .ok (setEvents es name (⟨cls, nh, data⟩ :: l))

/-- The keep-predicate of the `filter` inside `Event.off`:
`item[0] !== cls && (!handler || item[1].callback === handler.callback)`.
Short-circuit faithful: when `item[0] === cls` the right conjunct is not
evaluated; reading `.callback` off a `null` stored handler is a dynamic
`TypeError`. -/
def offKeep (cls : JSVal) (nh : Option NormHandler) (item : Binding) :
    Except String Bool :=
  if item.boundType == cls then .ok false
  else
    match nh with
    | none => .ok true
    | some nhv =>
      match item.handler with
      | none => .error "TypeError: cannot read property callback of null"
      | some ih => .ok (ih.callback == nhv.callback)

/-- `Array.prototype.filter` with a fallible predicate. -/
def filterE (p : Binding → Except String Bool) : List Binding → Except String (List Binding)
  | [] => .ok []
  | x :: xs =>
    match p x with
    | .error e => .error e
    | .ok b =>
      match filterE p xs with
      | .error e => .error e
      | .ok ys => .ok (if b then x :: ys else ys)

/-- `Event.off(cls, name, handler)`: `handler = handler || null`; a
string `cls` goes through `Jii.namespace`; the handler is normalized
(before the registry existence check, as in the source); absent list →
`false`; otherwise the list is replaced by its `offKeep`-filtered
version and the result is whether the length changed. -/
def off (h : Hierarchy) (self : Nat) (es : Events) (cls : JSVal) (name : String)
    (handler : JSVal) : Except String (Events × Bool) :=
  let handler := if handler.falsy then JSVal.vnull else handler
  let cls := match cls with
    | .vstr s => JSVal.vclass (h.ns s)
    | _ => cls
  match normalizeHandler h self handler .vundefined with
  | .error e => .error e
  | .ok (nh, _) =>
    match getEvents es name with
    | none => .ok (es, false)
    | some l =>
      match filterE (offKeep cls nh) l with
      | .error e => .error e
      | .ok l' => .ok (setEvents es name l', l'.length != l.length)

/-- The `while (true)` search of `Event.hasHandlers`: find a binding
whose `boundType` is the current value, else move to the prototype and
repeat until the chain ends. -/
def hasHandlersLoop (h : Hierarchy) (l : List Binding) : Nat → JSVal → Bool
  | 0, _ => false
  | fuel + 1, cls =>
    if (l.find? (fun item => item.boundType == cls)).isSome then true
    else
      match getProto h cls with
      | some c => hasHandlersLoop h l fuel c
      | none => false

/-- `Event.hasHandlers(cls, name)`: absent list → `false`; a string
`cls` goes through `Jii.namespace`; then the chain walk.  Note: no
`cls = cls.constructor` conversion happens here, unlike in `trigger`. -/
def hasHandlers (h : Hierarchy) (es : Events) (cls : JSVal) (name : String) : Bool :=
  match getEvents es name with
  | none => false
  | some l =>
    let cls := match cls with
      | .vstr s => JSVal.vclass (h.ns s)
      | _ => cls
    hasHandlersLoop h l (rankV h cls + 1) cls

/-- The event value object (`Event.preInit` fields): `name`, `sender`,
`data`, `params`, `handled`. -/
structure EvtRecord where
  name : JSVal
  sender : JSVal
  data : JSVal
  params : JSVal
  handled : Bool
  deriving DecidableEq

/-- A fresh `new Event()`: `params = {}`, `data = null`,
`handled = false`, `sender = null`, `name = null`. -/
def defaultEvent : EvtRecord :=
  { name := .vnull, sender := .vnull, data := .vnull, params := .vplain, handled := false }

/-- One level of dispatch: the `forEach` body of `Event.trigger`.
`isH` is the local `isHandled`; a guarded item (`isHandled` already true
or `item[0] !== cls`) is skipped; otherwise `event.data = item[2]`,
the callback runs (`item[1].callback.call(item[1].context, event)`),
and `isHandled = event.handled` is re-read.  Invoked callback
identifiers are appended to the trace `tr`. -/
def scanLevel (env : Nat → EvtRecord → EvtRecord) :
    List Binding → JSVal → EvtRecord → Bool → List Nat →
    Except String (EvtRecord × Bool × List Nat)
  | [], _, ev, isH, tr => .ok (ev, isH, tr)
  | item :: rest, cls, ev, isH, tr =>
    if isH || item.boundType != cls then
      scanLevel env rest cls ev isH tr
    else
      let ev := { ev with data := item.data }
      match item.handler with
      | none => .error "TypeError: cannot read property callback of null"
      | some nh =>
        match nh.callback with
        | .vfunc f =>
          let ev := env f ev
          scanLevel env rest cls ev ev.handled (tr ++ [f])
        | _ => .error "TypeError: callback is not a function"

/-- The `while (true)` walk of `Event.trigger`: scan the current level;
stop if `isHandled`; otherwise step to the prototype, ending when it is
`null`. -/
def triggerLoop (h : Hierarchy) (env : Nat → EvtRecord → EvtRecord) (l : List Binding) :
    Nat → JSVal → EvtRecord → List Nat → Except String (EvtRecord × List Nat)
  | 0, _, _, _ => .error "trigger: prototype chain fuel exhausted"
  | fuel + 1, cls, ev, tr =>
    match scanLevel env l cls ev false tr with
    | .error e => .error e
    | .ok (ev, isHandled, tr) =>
      if isHandled then .ok (ev, tr)
      else
        match getProto h cls with
        | some c => triggerLoop h env l fuel c ev tr
        | none => .ok (ev, tr)

/-- `Event.trigger(cls, name, event)`: absent list → immediate return
(the caller's record, if any, untouched); otherwise create a default
record if none was passed, reset `handled`/`name` unconditionally,
resolve a string target through `Jii.namespace`, set `sender` to the
target when the target is an object and `sender` is still null, replace
an object target by `target.constructor`, and walk the chain.  Returns
the record (when one existed or was created) and the trace of invoked
callback identifiers. -/
def trigger (h : Hierarchy) (env : Nat → EvtRecord → EvtRecord) (es : Events)
    (cls : JSVal) (name : String) (event : Option EvtRecord) :
    Except String (Option EvtRecord × List Nat) :=
  match getEvents es name with
  | none => .ok (event, [])
  | some l =>
    let ev := event.getD defaultEvent
    let ev := { ev with handled := false, name := JSVal.vstr name }
    let cls := match cls with
      | .vstr s => JSVal.vclass (h.ns s)
      | _ => cls
    let ev := if cls.isObjectV && ev.sender == JSVal.vnull then { ev with sender := cls } else ev
    let cls := if cls.isObjectV then constructorOf h cls else cls
    match triggerLoop h env l (rankV h cls + 1) cls ev [] with
    | .error e => .error e
    | .ok (ev, tr) => .ok (some ev, tr)

/-! ## Scenario material

A concrete three-class chain `A ← B ← C` (identifiers `0 ← 1 ← 2`),
the instances used by the scenarios, and the bindings of the testable
properties of §8 of the spec. -/

/-- Parent chain of the scenario hierarchy: `C (2) → B (1) → A (0)`. -/
def chainParent : Nat → Option Nat
  | 2 => some 1
  | 1 => some 0
  | _ => none

/-- Scenario hierarchy: instance `0` is a `C`, instance `1` an `A`,
instance `2` a `B`; class `7` (a registration class) has a static
method `"m"`, the function `11`; the namespace resolver maps every name
to class `0`. -/
def chainH : Hierarchy where
  parent := chainParent
  instClass := fun i =>
    match i with
    | 0 => 2
    | 1 => 0
    | 2 => 1
    | _ => 0
  ns := fun _ => 0
  statics := fun c m => if c = 7 ∧ m = "m" then some 11 else none

/-- Variant hierarchy for the `hasHandlers` claim: every instance is a
`C` (class `2`), so the single quantified theorem covers each instance
identifier. -/
def chain9H : Hierarchy where
  parent := chainParent
  instClass := fun _ => 2
  ns := fun _ => 0
  statics := fun _ _ => none

/-- A handler environment that leaves the event record unchanged. -/
def envId : Nat → EvtRecord → EvtRecord := fun _ ev => ev

/-- Binding of callback `1` (context-free) on class `A`. -/
def bA1 : Binding := ⟨.vclass 0, some ⟨.vnull, .vfunc 1⟩, .vnull⟩

/-- Binding of callback `2` (context-free) on class `A`. -/
def bA2 : Binding := ⟨.vclass 0, some ⟨.vnull, .vfunc 2⟩, .vnull⟩

/-- Binding of callback `2` on class `A` carrying data `"d"` (the
prepended binding of the prepend scenario). -/
def bA2d : Binding := ⟨.vclass 0, some ⟨.vnull, .vfunc 2⟩, .vstr "d"⟩

/-- Binding of callback `3` (context-free) on class `B`. -/
def bB3 : Binding := ⟨.vclass 1, some ⟨.vnull, .vfunc 3⟩, .vnull⟩

/-- Binding of callback `1` (the cancelling handler) on class `B`. -/
def bB1 : Binding := ⟨.vclass 1, some ⟨.vnull, .vfunc 1⟩, .vnull⟩

/-- Binding of callback `4` on class `B`, registered after the
cancelling one. -/
def bB4 : Binding := ⟨.vclass 1, some ⟨.vnull, .vfunc 4⟩, .vnull⟩

/-- Binding of callback `5` (context-free) on class `A`. -/
def bA5 : Binding := ⟨.vclass 0, some ⟨.vnull, .vfunc 5⟩, .vnull⟩

/-- Binding of callback `6` (context-free) on class `C`. -/
def bC6 : Binding := ⟨.vclass 2, some ⟨.vnull, .vfunc 6⟩, .vnull⟩

/-- Binding of callback `3` (context-free) on class `C`. -/
def bC3 : Binding := ⟨.vclass 2, some ⟨.vnull, .vfunc 3⟩, .vnull⟩

/-- Binding of callback `7` (context-free) on class `A`. -/
def bA7 : Binding := ⟨.vclass 0, some ⟨.vnull, .vfunc 7⟩, .vnull⟩

/-- An environment in which callback `1` marks the event handled and
every other callback behaves arbitrarily (`g`). -/
def cancelEnv (g : Nat → EvtRecord → EvtRecord) : Nat → EvtRecord → EvtRecord :=
  fun f ev => if f = 1 then { ev with handled := true } else g f ev

/-- The event record exactly as it is passed to the `A`-level handler
when `"e"` is triggered on instance `0` (a `C`) with one binding on `A`:
`name` and `sender` were set by `trigger`, `data` by the binding. -/
def evX4 : EvtRecord :=
  { name := .vstr "e", sender := .vinst 0, data := .vnull, params := .vplain, handled := false }

/-- No binding per distinct bound type occurs twice in the list. -/
def nodupBoundTypes (l : List Binding) : Prop :=
  l.Pairwise (fun a b => a.boundType ≠ b.boundType)

/-! ## Theorems -/

/-- Writing a key with `setEvents` makes `getEvents` return exactly the
written list. -/
theorem getEvents_setEvents (es : Events) (name : String) (l : List Binding) :
    getEvents (setEvents es name l) name = some l := by
  induction es with
  | nil => simp [getEvents, setEvents]
  | cons p es ih =>
    by_cases h : p.1 == name <;> simp [getEvents, setEvents, h, ih]

/-- C1: the claim says `detach` removes exactly the bindings whose
`boundType` equals the given type and whose callback is
reference-equal to the given handler's callback, so that
`detach("e", A, someOtherHandler)` after `attach("e", A, h)` returns
false and changes nothing.  The code diverges: its filter keeps an item
iff `item[0] !== cls && (!handler || item[1].callback === handler.callback)`,
so detaching with the never-attached callback `2` still deletes the
`(A, callback 1)` binding and returns `true`; with a second binding on
`B` present, that unrelated binding is deleted as well.  (The two parts
the code does get right are also recorded: detaching the attached
handler removes it, and `hasHandlers` is false afterwards.) -/
theorem C1_off_filter_code_bug :
    on' chainH 9 [] (.vclass 0) "e" (.vfunc 1) .vnull .vundefined = .ok [("e", [bA1])] ∧
    off chainH 9 [("e", [bA1])] (.vclass 0) "e" (.vfunc 2) = .ok ([("e", [])], true) ∧
    off chainH 9 [("e", [bA1, bB3])] (.vclass 0) "e" (.vfunc 2) = .ok ([("e", [])], true) ∧
    off chainH 9 [("e", [bA1])] (.vclass 0) "e" (.vfunc 1) = .ok ([("e", [])], true) ∧
    hasHandlers chainH [("e", [])] (.vclass 0) "e" = false :=
  ⟨rfl, rfl, rfl, rfl, rfl⟩

/-- C2: the claim says that when `trigger` is called with a bare type
`T`, the hierarchy walk starts at `T` itself, so a binding with
`boundType = T` fires.  The code diverges: lodash `_isObject` is true
for functions, so a bare class is replaced by `cls.constructor`, which
is the built-in `Function`; the walk therefore starts at `Function` and
the binding on `T` (class `0`) never fires (empty trace), while
triggering on an instance of `T` does fire it. -/
theorem C2_trigger_bare_type_code_bug :
    constructorOf chainH (.vclass 0) = .vfunctionCtor ∧
    trigger chainH envId [("e", [bA7])] (.vclass 0) "e" none
      = .ok (some ⟨.vstr "e", .vclass 0, .vnull, .vplain, false⟩, []) ∧
    trigger chainH envId [("e", [bA7])] (.vinst 1) "e" none
      = .ok (some ⟨.vstr "e", .vinst 1, .vnull, .vplain, false⟩, [7]) :=
  ⟨rfl, rfl, rfl⟩

/-- C3: once an invoked handler sets `handled`, no further handler runs
for that trigger — neither the later binding at the same level
(callback `4` on `B`) nor the binding at the ancestor level (callback
`2` on `A`).  With bindings `[A ↦ 2, B ↦ 1, B ↦ 4]` for `"e"` and the
`B`-level callback `1` setting `handled := true`, triggering `"e"` on
instance `2` (a `B`) invokes exactly callback `1`, whatever the other
handlers (`g`) would do: the trace is `[1]` and the record ends
handled. -/
theorem C3_cancellation_stops_walk (g : Nat → EvtRecord → EvtRecord) :
    trigger chainH (cancelEnv g) [("e", [bA2, bB1, bB4])] (.vinst 2) "e" none
      = .ok (some ⟨.vstr "e", .vinst 2, .vnull, .vplain, true⟩, [1]) :=
  rfl

/-- Triggering `"e"` on instance `0` (a `C`) with the single binding
`A ↦ 5` reduces, for an arbitrary environment, to a branch on whether
the invoked handler marked the record handled — and both branches carry
the same record and the same one-element trace. -/
theorem trigger_instC_unfold (env : Nat → EvtRecord → EvtRecord) :
    trigger chainH env [("e", [bA5])] (.vinst 0) "e" none
      = (match
          (if (env 5 evX4).handled then
            (Except.ok (env 5 evX4, ([5] : List Nat)) : Except String (EvtRecord × List Nat))
          else .ok (env 5 evX4, [5])) with
        | .error e => (.error e : Except String (Option EvtRecord × List Nat))
        | .ok (ev, tr) => .ok (some ev, tr)) :=
  rfl

/-- C4: with the chain `A ← B ← C` and one binding on `A` for `"e"`,
triggering `"e"` on instance `0` (a `C`) invokes that handler exactly
once — the trace is `[5]` for every handler environment, whether or not
the handler cancels; conversely, with a binding on `C` only, triggering
on instance `1` (an `A`) or instance `2` (a `B`) invokes nothing. -/
theorem C4_hierarchy_fanout (env : Nat → EvtRecord → EvtRecord) :
    trigger chainH env [("e", [bA5])] (.vinst 0) "e" none = .ok (some (env 5 evX4), [5]) ∧
    trigger chainH env [("e", [bC6])] (.vinst 1) "e" none
      = .ok (some ⟨.vstr "e", .vinst 1, .vnull, .vplain, false⟩, []) ∧
    trigger chainH env [("e", [bC6])] (.vinst 2) "e" none
      = .ok (some ⟨.vstr "e", .vinst 2, .vnull, .vplain, false⟩, []) := by
  refine ⟨?_, rfl, rfl⟩
  rw [trigger_instC_unfold, ite_self]

/-- C5 counterexample: the claim says a bare method-name string yields
`{context: defaultContext, callback: defaultContext[name]}` with the
registration class as context.  Normalizing `"m"` on class `7` (whose
static `"m"` is function `11`) as `Event.on` does — no context argument,
so `context` is `undefined` and defaults to `null` — yields context
`null`, not class `7`: the code reads `callback` from `this` but takes
`context` from the (absent) parameter. -/
theorem C5_string_context_counterexample :
    normalizeHandler chainH 7 (.vstr "m") .vundefined
      = .ok (some ⟨.vnull, .vfunc 11⟩, .vstr "m") ∧
    JSVal.vnull ≠ JSVal.vclass 7 :=
  ⟨rfl, by simp⟩

/-- C5 (amended): normalizing a bare non-empty method-name string with
no supplied context — exactly how `Event.on`/`Event.off` call it —
yields the callback looked up on the class on which normalization was
invoked (`this[name]`), but a `null` context, because the context comes
from the optional `context` parameter (defaulted to `null`), which the
registration path never supplies. -/
theorem C5_string_handler_amended (h : Hierarchy) (self : Nat) (s : String)
    (hs : s ≠ "") :
    normalizeHandler h self (.vstr s) .vundefined
      = .ok (some ⟨.vnull, getProp h (.vclass self) (.vstr s)⟩, .vstr s) := by
  simp [normalizeHandler, JSVal.falsy, hs]

/-- C5 witness: the amended statement evaluated at class `7` and
method name `"m"`. -/
theorem C5_string_handler_amended_witness :
    normalizeHandler chainH 7 (.vstr "m") .vundefined
      = .ok (some ⟨.vnull, getProp chainH (.vclass 7) (.vstr "m")⟩, .vstr "m") :=
  C5_string_handler_amended chainH 7 "m" (by decide)

/-- C6: in append mode (the default, `isAppend` undefined), attaching to
a type that already has a binding in the event's list is a no-op on that
list; and append-mode attaches preserve the at-most-one-binding-per-
distinct-bound-type invariant.  (`nh`/`mutated` name the normalized handler
and the possibly mutated raw handler.) -/
theorem C6_append_no_duplicate (h : Hierarchy) (self : Nat) (es : Events) (c : Nat)
    (name : String) (handler data : JSVal) (nh : Option NormHandler) (mutated : JSVal)
    (l : List Binding)
    (hnorm : normalizeHandler h self handler .vundefined = .ok (nh, mutated))
    (hl : getEvents es name = some l) :
    ((l.find? (fun item => item.boundType == .vclass c)).isSome = true →
      on' h self es (.vclass c) name handler data .vundefined = .ok (setEvents es name l)) ∧
    (nodupBoundTypes l →
      ∃ l', on' h self es (.vclass c) name handler data .vundefined
              = .ok (setEvents es name l') ∧
            getEvents (setEvents es name l') name = some l' ∧
            nodupBoundTypes l') := by
  constructor
  · intro hdup
    simp [on', hnorm, hl, hdup]
  · intro hnd
    by_cases hdup : (l.find? (fun item => item.boundType == .vclass c)).isSome = true
    · exact ⟨l, by simp [on', hnorm, hl, hdup], getEvents_setEvents .., hnd⟩
    · refine ⟨l ++ [⟨.vclass c, nh, if data.falsy then JSVal.vnull else data⟩],
        by simp [on', hnorm, hl, hdup], getEvents_setEvents .., ?_⟩
      have hnone : l.find? (fun item => item.boundType == .vclass c) = none := by
        cases hfind : l.find? (fun item => item.boundType == .vclass c) with
        | none => rfl
        | some b => rw [hfind] at hdup; simp at hdup
      rw [List.find?_eq_none] at hnone
      refine List.pairwise_append.mpr ⟨hnd, List.pairwise_singleton _ _, ?_⟩
      intro a ha b hb
      have := hnone a ha
      simp at hb this
      rw [hb]
      simpa using this

/-- C6 witness: attaching callback `1` to `A` and then callback `2` to
`A` in append mode leaves the list with only the first binding, and the
one-binding list keeps distinct bound types. -/
theorem C6_append_no_duplicate_witness :
    on' chainH 9 [("e", [bA1])] (.vclass 0) "e" (.vfunc 2) .vnull .vundefined
      = .ok (setEvents [("e", [bA1])] "e" [bA1]) ∧
    nodupBoundTypes [bA1] :=
  ⟨(C6_append_no_duplicate chainH 9 [("e", [bA1])] 0 "e" (.vfunc 2) .vnull
      (some ⟨.vnull, .vfunc 2⟩) (.vfunc 2) [bA1] rfl rfl).1 rfl,
    List.pairwise_singleton _ _⟩

/-- C7: the claim says that after `attach("e", A, h1)` and a prepended
`attach("e", A, h2, data)`, triggering `"e"` on `A` runs `h2` before
`h1`.  Prepending does insert at the front (first two conjuncts), and
on an *instance* of `A` the callbacks run in the order `2` then `1` —
but on the bare type `A` itself, as the claim literally states, the
code runs neither handler (empty trace), because `trigger` replaces the
class by `cls.constructor` (the built-in `Function`) before walking. -/
theorem C7_prepend_order_code_bug :
    on' chainH 9 [] (.vclass 0) "e" (.vfunc 1) .vnull .vundefined = .ok [("e", [bA1])] ∧
    on' chainH 9 [("e", [bA1])] (.vclass 0) "e" (.vfunc 2) (.vstr "d") (.vbool false)
      = .ok [("e", [bA2d, bA1])] ∧
    trigger chainH envId [("e", [bA2d, bA1])] (.vclass 0) "e" none
      = .ok (some ⟨.vstr "e", .vclass 0, .vnull, .vplain, false⟩, []) ∧
    trigger chainH envId [("e", [bA2d, bA1])] (.vinst 1) "e" none
      = .ok (some ⟨.vstr "e", .vinst 1, .vnull, .vplain, false⟩, [2, 1]) :=
  ⟨rfl, rfl, rfl, rfl⟩

/-- C8 counterexample: the claim says every input matching none of the
five accepted shapes fails with the `MalformedHandler` error.  The
two-element array `[3, 4]` matches none of them — its first element is
neither callable nor a string — yet normalization does not fail: the
code's two-element-array branch unconditionally returns
`{context: handler[0], callback: handler[0][handler[1]]}`, here a
degenerate handler with a numeric context and an `undefined`
callback. -/
theorem C8_malformed_pair_counterexample :
    normalizeHandler chainH 0 (.varr2 (.vnum 3) (.vnum 4)) .vundefined
      = .ok (some ⟨.vnum 3, .vundefined⟩, .varr2 (.vnum 3) (.vnum 4)) :=
  rfl

/-- C8 (amended): a null or undefined input returns "no handler"
(`none`) without failing, and every input that is not falsy, not an
object with `callback`/`context` keys, not a two-element array, not a
string and not callable fails with the `Wrong handler format:` error
carrying the serialization of the offending value.  (Two-element arrays
are excluded: they never fail, however malformed.) -/
theorem C8_normalize_error_amended (h : Hierarchy) (self : Nat) (v ctx : JSVal)
    (hfal : v.falsy = false)
    (hhobj : v.hasCallbackContext = false)
    (harr : v.isArrayLen2 = false)
    (hstr : v.isStringV = false)
    (hfn : v.isFunctionV = false) :
    normalizeHandler h self .vnull ctx = .ok (none, .vnull) ∧
    normalizeHandler h self .vundefined ctx = .ok (none, .vundefined) ∧
    normalizeHandler h self v ctx = .error ("Wrong handler format:" ++ jsonStringify v) := by
  refine ⟨rfl, rfl, ?_⟩
  cases v <;>
    simp_all [normalizeHandler, JSVal.falsy, JSVal.hasCallbackContext,
      JSVal.isArrayLen2, JSVal.isStringV, JSVal.isFunctionV]

/-- C8 witness: the amended statement at the plain object (no
`callback`/`context` keys), which fails with the serialized value in
the message, next to the non-failing null/undefined cases. -/
theorem C8_normalize_error_amended_witness :
    normalizeHandler chainH 0 .vnull .vundefined = .ok (none, .vnull) ∧
    normalizeHandler chainH 0 .vundefined .vundefined = .ok (none, .vundefined) ∧
    normalizeHandler chainH 0 .vplain .vundefined
      = .error ("Wrong handler format:" ++ jsonStringify .vplain) :=
  C8_normalize_error_amended chainH 0 .vplain .vundefined rfl rfl rfl rfl rfl

/-- C9: `hasHandlers`, unlike `trigger`, never converts an instance to
its runtime class: it compares the instance itself and then its
prototype-chain objects (`C.prototype`, …, `Object.prototype`) against
the bound types, and a class never equals a prototype object.  So with
one binding for `(e, C)` (class `2`), `hasHandlers` answers `false` on
every instance `i` (all instances of `chain9H` are `C`s) even though
`trigger` on the same instance invokes the binding's callback — while
`hasHandlers` on the bare class answers `true`. -/
theorem C9_hasHandlers_instance_asymmetry (i : Nat) :
    hasHandlers chain9H [("e", [bC3])] (.vinst i) "e" = false ∧
    trigger chain9H envId [("e", [bC3])] (.vinst i) "e" none
      = .ok (some ⟨.vstr "e", .vinst i, .vnull, .vplain, false⟩, [3]) ∧
    hasHandlers chain9H [("e", [bC3])] (.vclass 2) "e" = true :=
  ⟨rfl, rfl, rfl⟩

/-- C10: normalizing the pair form `[typeName, methodName]` writes the
resolved type into the caller's array: for every hierarchy, invoking
class and context, the returned "array after the call" has the resolved
class as its first element, which is never the original string. -/
theorem C10_pair_form_mutates_array (h : Hierarchy) (self : Nat) (t mn : String)
    (ctx : JSVal) :
    normalizeHandler h self (.varr2 (.vstr t) (.vstr mn)) ctx
      = .ok (some ⟨.vclass (h.ns t), getProp h (.vclass (h.ns t)) (.vstr mn)⟩,
             .varr2 (.vclass (h.ns t)) (.vstr mn)) ∧
    (JSVal.vclass (h.ns t)) ≠ .vstr t :=
  ⟨rfl, by simp⟩

end JiiEvent
